import Mathlib

/-!
# Shallow embedding of `server.js` (shopifwebstock)

The repository consists of two evolutionary snapshots of one Express server
that relays Shopify `orders/updated` webhooks to the WebStock warehouse API.
Variant 1 (the first snapshot) keeps a process-local `sentOrders` set used for
de-duplication; variant 2 (the second snapshot) has no such set.  Both share
the HMAC verifier, the title→EAN article resolver, and the line-item mapper;
variant 1 additionally has the street/house-number splitter.

JavaScript-specific behaviour is embedded explicitly:
* absent / `undefined` string-valued fields are `Option String` (`none` = absent);
* `a || b` falls through on falsy values (`undefined`, `null`, `""`, `0`);
* fields that may hold arbitrary JSON scalars (`quantity`, `price`) use `JSVal`;
* `parseFloat` returns `Option ℚ` with `none` playing the role of `NaN`;
* exceptions (`crypto.timingSafeEqual` on length mismatch) are `Except`.
-/

namespace ShopifWebStock

/-- The character set matched by the JavaScript regex class `\s` and removed by
`String.prototype.trim` (WhiteSpace ∪ LineTerminator). -/
def isJsWhitespace (c : Char) : Bool :=
  c.toNat = 0x09 || c.toNat = 0x0A || c.toNat = 0x0B || c.toNat = 0x0C ||
  c.toNat = 0x0D || c.toNat = 0x20 || c.toNat = 0xA0 || c.toNat = 0x1680 ||
  (0x2000 ≤ c.toNat && c.toNat ≤ 0x200A) ||
  c.toNat = 0x2028 || c.toNat = 0x2029 || c.toNat = 0x202F ||
  c.toNat = 0x205F || c.toNat = 0x3000 || c.toNat = 0xFEFF

/-- JavaScript LineTerminator characters, which `.` in a regex does not match. -/
def isLineTerminator (c : Char) : Bool :=
  c.toNat = 0x0A || c.toNat = 0x0D || c.toNat = 0x2028 || c.toNat = 0x2029

/-- `String.prototype.trim` on a character list. -/
def jsTrimList (l : List Char) : List Char :=
  ((l.dropWhile isJsWhitespace).reverse.dropWhile isJsWhitespace).reverse

/-- `String.prototype.trim`. -/
def jsTrim (s : String) : String :=
  ⟨jsTrimList s.data⟩

/-- Truthiness of a possibly-absent string: `undefined` and `""` are falsy. -/
def jsTruthy : Option String → Bool
  | none => false
  | some s => s ≠ ""

/-- `a || b` for possibly-absent strings. -/
def jsOr (a b : Option String) : Option String :=
  if jsTruthy a then a else b

/-- `a || d` where the default is a definite string (so the result is one). -/
def jsOrStr (a : Option String) (d : String) : String :=
  match a with
  | none => d
  | some s => if s = "" then d else s

/-- Template-literal stringification: `undefined` prints as `"undefined"`. -/
def jsToStr : Option String → String
  | none => "undefined"
  | some s => s

/-- A JSON-ish scalar as it can appear in a parsed webhook body field.
`undef` stands for an absent field.  (Numbers are modelled as rationals:
every decimal numeral occurring here is finite and exact.) -/
inductive JSVal where
  | undef
  | null
  | num (q : ℚ)
  | str (s : String)
deriving DecidableEq, Repr

/-- JavaScript truthiness of a `JSVal`. -/
def JSVal.truthy : JSVal → Bool
  | .undef => false
  | .null => false
  | .num q => q ≠ 0
  | .str s => s ≠ ""

/-- `a || b` on JSON-ish scalars. -/
def jsvOr (a b : JSVal) : JSVal :=
  if a.truthy then a else b

/-- Numeric value of a list of decimal digit characters. -/
def natOfDigits (l : List Char) : ℕ :=
  l.foldl (fun acc c => 10 * acc + (c.toNat - '0'.toNat)) 0

/-- The exact rational value of the decimal numeral `ip "." fp`, negated when
`neg` holds. -/
def decimalValue (neg : Bool) (ip fp : List Char) : ℚ :=
  let m : Int := (natOfDigits ip * 10 ^ fp.length + natOfDigits fp : ℕ)
  mkRat (if neg then -m else m) (10 ^ fp.length)

/-- `parseFloat` on a string: skip leading whitespace, optional sign, then the
longest prefix `digits[.digits]` (plain decimal numerals; scientific notation
and `Infinity`, which never occur in this data, are out of scope).  `none`
plays the role of `NaN`. -/
def jsParseFloatStr (s : String) : Option ℚ :=
  let l := s.data.dropWhile isJsWhitespace
  let neg : Bool := match l with
    | '-' :: _ => true
    | _ => false
  let l1 : List Char := match l with
    | '-' :: r => r
    | '+' :: r => r
    | _ => l
  let ip := l1.takeWhile Char.isDigit
  let l2 := l1.dropWhile Char.isDigit
  match l2 with
  | '.' :: l3 =>
    let fp := l3.takeWhile Char.isDigit
    if ip.isEmpty && fp.isEmpty then none
    else some (decimalValue neg ip fp)
  | _ => if ip.isEmpty then none else some (decimalValue neg ip [])

/-- `parseFloat` applied to a JSON-ish scalar (the argument is stringified
first: `String(undefined) = "undefined"` and `String(null) = "null"` both
parse to `NaN`; a finite number round-trips through its decimal printout). -/
def jsParseFloat : JSVal → Option ℚ
  | .num q => some q
  | .str s => jsParseFloatStr s
  | .undef => none
  | .null => none

/-! ## Product mapping and article resolution (`server.js`, both variants) -/

/-- `TITLE_TO_EAN_MAP`: the static title → EAN lookup table. -/
def TITLE_TO_EAN_MAP : List (String × String) :=
  [("fruit punch", "8720892642738"),
   ("blue razzberry", "8720892642714"),
   ("juicy mango", "8720892642752"),
   ("orange blast", "8720892642776")]

/-- One Shopify line item, with the fields the server reads. -/
structure LineItem where
  title : Option String := none
  sku : Option String := none
  variant_title : Option String := none
  quantity : JSVal := .undef
  price : JSVal := .undef
deriving DecidableEq, Repr

/-- `String.prototype.toLowerCase`, character by character (agrees with the
JavaScript function on the ASCII titles this server handles). -/
def jsToLower (s : String) : String :=
  ⟨s.data.map Char.toLower⟩

/-- `normalizeTitle`: falsy titles become `""`; otherwise trim and lowercase. -/
def normalizeTitle (title : Option String) : String :=
  match title with
  | none => ""
  | some t => if t = "" then "" else jsToLower (jsTrim t)

/-- Result of `resolveArticleFromItem`. -/
structure ResolvedArticle where
  articleNumber : String
  ean : String
deriving DecidableEq, Repr

/-- `resolveArticleFromItem`: look the normalized title up in the static map;
on a (truthy) hit return the EAN as both fields, otherwise fall back to
`item.sku || item.title || "UNKNOWN"` with an empty EAN. -/
def resolveArticleFromItem (item : LineItem) : ResolvedArticle :=
  let normalized := normalizeTitle item.title
  match TITLE_TO_EAN_MAP.lookup normalized with
  | some ean =>
    if ean = "" then
      { articleNumber := jsOrStr item.sku (jsOrStr item.title "UNKNOWN"), ean := "" }
    else
      { articleNumber := ean, ean := ean }
  | none =>
    { articleNumber := jsOrStr item.sku (jsOrStr item.title "UNKNOWN"), ean := "" }

/-! ## Street / house-number decomposition (`splitStreetAndHouse`, variant 1)

The source matches the trimmed address against the regex

  `^(.+?)\s+(\d{1,5})([A-Za-z0-9\-\/]*)\s*$`

`splitCore` below realises exactly the backtracking search of that regex:
the lazy group `(.+?)` is grown one character at a time (each of its
characters must not be a LineTerminator, the semantics of `.`), and for each
candidate split `tryTail` decides whether the remainder matches
`\s+(\d{1,5})([A-Za-z0-9\-\/]*)\s*$`.  Because `\s`, `\d` and the addition
class are pairwise-disjoint-enough (whitespace is neither a digit nor an
addition character), the greedy quantifiers never need to backtrack inside
`tryTail`: the maximal-munch spans used here are the matches the engine finds.
-/

/-- The regex class `\d`, i.e. `[0-9]`. -/
def isRegexDigit (c : Char) : Bool :=
  0x30 ≤ c.toNat && c.toNat ≤ 0x39

/-- Characters of the regex class `[A-Za-z0-9\-\/]`. -/
def isAdditionChar (c : Char) : Bool :=
  (0x41 ≤ c.toNat && c.toNat ≤ 0x5A) || (0x61 ≤ c.toNat && c.toNat ≤ 0x7A) ||
  (0x30 ≤ c.toNat && c.toNat ≤ 0x39) || c.toNat = 0x2D || c.toNat = 0x2F

/-- Match `\s+(\d{1,5})([A-Za-z0-9\-\/]*)\s*$` against `l`, returning the two
captured groups (house number, addition) on success. -/
def tryTail (l : List Char) : Option (List Char × List Char) :=
  let ws := l.takeWhile isJsWhitespace
  let rest1 := l.dropWhile isJsWhitespace
  if ws.isEmpty then none
  else
    let digs := rest1.takeWhile isRegexDigit
    let rest2 := rest1.dropWhile isRegexDigit
    if digs.isEmpty then none
    else
      let k := min 5 digs.length
      let houseNum := digs.take k
      let after := digs.drop k ++ rest2
      let add := after.takeWhile isAdditionChar
      let rest3 := after.dropWhile isAdditionChar
      if rest3.all isJsWhitespace then some (houseNum, add) else none

/-- The lazy search for the split point: `acc` holds the reversed characters
already committed to the group `(.+?)`. -/
def splitCore : List Char → List Char → Option (List Char × List Char × List Char)
  | _, [] => none
  | acc, c :: rest =>
    if isLineTerminator c then none
    else
      match tryTail rest with
      | some (hn, add) => some ((c :: acc).reverse, hn, add)
      | none => splitCore (c :: acc) rest

/-- Result record of `splitStreetAndHouse`. -/
structure SplitResult where
  street : String
  houseNumber : String
  houseNumberAddition : String
deriving DecidableEq, Repr

/-- `splitStreetAndHouse`: falsy input gives all-empty fields; otherwise match
the trimmed input against the regex, falling back to street = whole trimmed
string when there is no match. -/
def splitStreetAndHouse (address : Option String) : SplitResult :=
  match address with
  | none => { street := "", houseNumber := "", houseNumberAddition := "" }
  | some a =>
    if a = "" then { street := "", houseNumber := "", houseNumberAddition := "" }
    else
      let trimmed := jsTrim a
      match splitCore [] trimmed.data with
      | none => { street := trimmed, houseNumber := "", houseNumberAddition := "" }
      | some (g1, hn, add) =>
        { street := jsTrim ⟨g1⟩
          houseNumber := jsTrim ⟨hn⟩
          houseNumberAddition := jsTrim ⟨add⟩ }

/-! ## Inbound order model (the fields `server.js` reads) -/

/-- `order.shipping_address`. -/
structure ShippingAddress where
  first_name : Option String := none
  last_name : Option String := none
  name : Option String := none
  company : Option String := none
  phone : Option String := none
  address1 : Option String := none
  address2 : Option String := none
  zip : Option String := none
  city : Option String := none
  country : Option String := none
  country_code : Option String := none
deriving DecidableEq, Repr

/-- `order.customer`. -/
structure Customer where
  id : Option ℕ := none
  first_name : Option String := none
  last_name : Option String := none
deriving DecidableEq, Repr

/-- A parsed Shopify order payload. -/
structure Order where
  id : ℕ
  name : Option String := none
  order_number : Option ℕ := none
  admin_graphql_api_id : Option String := none
  email : Option String := none
  contact_email : Option String := none
  phone : Option String := none
  fulfillment_status : Option String := none
  shipping_address : Option ShippingAddress := none
  customer : Option Customer := none
  line_items : Option (List LineItem) := none
deriving DecidableEq, Repr

/-! ## Outbound WebStock payloads -/

/-- One WebStock sales-order line as built by `mapLineItemToWebStockLine`. -/
structure WebStockLine where
  SalesOrderLineExternId : ℕ
  SalesOrderLineExternGuid : String
  ArticleId : ℕ
  ArticleExternId : ℕ
  ArticleExternGuid : String
  ArticleNumber : String
  Eancode : String
  PackagingUnit : String
  PackagingQuantity : ℕ
  ProductGroup : String
  ProductName : String
  ProductDescription : String
  QuantityOrdered : JSVal
  QuantityDelivered : ℕ
  PricePerArticle : Option ℚ
  Description : String
  LotId : ℕ
  LotName : String
  LotDescription : String
  LotBestBeforeDate : String
deriving DecidableEq, Repr

/-- The WebStock sales-order payload built by `buildWebStockOrderFromShopify`
(field superset of both variants; `Option String` fields can be `undefined`
or `null` in the JavaScript object). -/
structure WebStockOrder where
  SalesOrderExternId : ℕ
  SalesOrderExternGuid : String
  SalesOrderExternParentId : ℕ
  SalesOrderNumber : String
  Status : ℕ
  CustomerId : ℕ
  CustomerNumber : String
  CustomerName : Option String
  CustomerContact : String
  CustomerEmail : String
  ProjectName : String
  ProjectDescription : String
  HandlingType : String
  HandlingDate : Option String
  ReadyDate : Option String
  CustomerReference : Option String
  SalesOrderDescription : String
  DeliveryTerms : String
  ShippingDetails : String
  SalesOrderDocuments : String
  AddressContactPerson1 : String
  AddressAttention1 : String
  AddressStreet1 : String
  AddressHouseNumber1 : String
  AddressHouseNumberAddition1 : String
  AddressZipcode1 : String
  AddressCity1 : String
  AddressCountry1 : String
  AddressPhonenumber1 : String
  AddressEmail1 : String
  Address2Name : String
  AddressContactPerson2 : String
  AddressAttention2 : String
  AddressStreet2 : String
  AddressHouseNumber2 : String
  AddressHouseNumberAddition2 : String
  AddressZipcode2 : String
  AddressCity2 : String
  AddressCountry2 : String
  AddressPhonenumber2 : String
  AddressEmail2 : String
  WareHouse : String
  OrderLines : List WebStockLine
deriving DecidableEq, Repr

/-- `WEBSTOCK_WAREHOUSE`. -/
def WEBSTOCK_WAREHOUSE : String := "Test"

/-- The constant the source names `WEBSTOCK_ORDER_` followed by `PREFIX`: the
literal prepended to `SalesOrderNumber`. -/
def WEBSTOCK_ORDER_NUMBER_START : String := "GWT"

/-- `WEBSTOCK_MAIN_CUSTOMER_NUMBER` (variant 1 only). -/
def WEBSTOCK_MAIN_CUSTOMER_NUMBER : String := "Cust001266"

/-- `WEBSTOCK_MAIN_CUSTOMER_NAME` (variant 1 only). -/
def WEBSTOCK_MAIN_CUSTOMER_NAME : String := "GWT-SBG BV"

/-- `String.prototype.toUpperCase`, character by character. -/
def jsToUpper (s : String) : String :=
  ⟨s.data.map Char.toUpper⟩

/-- The template literal for `SalesOrderNumber` (an absent `order_number`
stringifies as `"undefined"`). -/
def salesOrderNumberOf (order : Order) : String :=
  WEBSTOCK_ORDER_NUMBER_START ++
    (match order.order_number with
     | some n => toString n
     | none => "undefined")

/-- `mapLineItemToWebStockLine` (identical in both variants). -/
def mapLineItemToWebStockLine (item : LineItem) : WebStockLine :=
  let r := resolveArticleFromItem item
  { SalesOrderLineExternId := 0
    SalesOrderLineExternGuid := ""
    ArticleId := 0
    ArticleExternId := 0
    ArticleExternGuid := ""
    ArticleNumber := r.articleNumber
    Eancode := r.ean
    PackagingUnit := "st"
    PackagingQuantity := 1
    ProductGroup := ""
    ProductName := jsOrStr item.title ""
    ProductDescription := jsOrStr item.variant_title (jsOrStr item.title "")
    QuantityOrdered := jsvOr item.quantity (.num 0)
    QuantityDelivered := 0
    PricePerArticle := jsParseFloat (jsvOr item.price (.num 0))
    Description := ""
    LotId := 0
    LotName := ""
    LotDescription := ""
    LotBestBeforeDate := "" }

/-- `buildWebStockOrderFromShopify`, variant 1: the main customer is the fixed
GWT-SBG record, the Shopify recipient goes into address block 2, and
`address1` is decomposed with `splitStreetAndHouse`. -/
def buildWebStockOrderFromShopifyV1 (order : Order) : WebStockOrder :=
  let shipping := order.shipping_address.getD {}
  let endCustomerName :=
    let concat := jsTrim (jsOrStr shipping.first_name "" ++ " " ++ jsOrStr shipping.last_name "")
    jsOrStr shipping.company (if concat = "" then jsOrStr shipping.name "" else concat)
  let endCustomerPhone := jsOrStr shipping.phone (jsOrStr order.phone "")
  let endCustomerEmail := jsOrStr order.email (jsOrStr order.contact_email "")
  let split := splitStreetAndHouse (some (jsOrStr shipping.address1 ""))
  let countryCode2 := jsToUpper (jsOrStr shipping.country_code "")
  let houseAddition2 := jsOrStr shipping.address2 split.houseNumberAddition
  { SalesOrderExternId := order.id
    SalesOrderExternGuid := jsOrStr order.admin_graphql_api_id ""
    SalesOrderExternParentId := 0
    SalesOrderNumber := salesOrderNumberOf order
    Status := 10
    CustomerId := 0
    CustomerNumber := WEBSTOCK_MAIN_CUSTOMER_NUMBER
    CustomerName := some WEBSTOCK_MAIN_CUSTOMER_NAME
    CustomerContact := ""
    CustomerEmail := ""
    ProjectName := ""
    ProjectDescription := ""
    HandlingType := ""
    HandlingDate := none
    ReadyDate := none
    CustomerReference := order.name
    SalesOrderDescription := "Shopify order " ++ jsToStr order.name
    DeliveryTerms := ""
    ShippingDetails := ""
    SalesOrderDocuments := ""
    AddressContactPerson1 := ""
    AddressAttention1 := ""
    AddressStreet1 := ""
    AddressHouseNumber1 := ""
    AddressHouseNumberAddition1 := ""
    AddressZipcode1 := ""
    AddressCity1 := ""
    AddressCountry1 := ""
    AddressPhonenumber1 := ""
    AddressEmail1 := ""
    Address2Name := endCustomerName
    AddressContactPerson2 := endCustomerName
    AddressAttention2 := ""
    AddressStreet2 := split.street
    AddressHouseNumber2 := split.houseNumber
    AddressHouseNumberAddition2 := houseAddition2
    AddressZipcode2 := jsOrStr shipping.zip ""
    AddressCity2 := jsOrStr shipping.city ""
    AddressCountry2 := countryCode2
    AddressPhonenumber2 := endCustomerPhone
    AddressEmail2 := endCustomerEmail
    WareHouse := WEBSTOCK_WAREHOUSE
    OrderLines := (order.line_items.getD []).map mapLineItemToWebStockLine }

/-- `buildWebStockOrderFromShopify`, variant 2: the Shopify customer is the
WebStock customer and the shipping address goes into address block 1,
undecomposed. -/
def buildWebStockOrderFromShopifyV2 (order : Order) : WebStockOrder :=
  let shipping := order.shipping_address.getD {}
  let customer := order.customer.getD {}
  let customerName : Option String :=
    let concat := jsTrim (jsOrStr customer.first_name "" ++ " " ++ jsOrStr customer.last_name "")
    if concat = "" then jsOr shipping.name order.name else some concat
  { SalesOrderExternId := order.id
    SalesOrderExternGuid := jsOrStr order.admin_graphql_api_id ""
    SalesOrderExternParentId := 0
    SalesOrderNumber := salesOrderNumberOf order
    Status := 10
    CustomerId := 0
    CustomerNumber :=
      match customer.id with
      | some n => if n = 0 then "" else toString n
      | none => ""
    CustomerName := customerName
    CustomerContact := jsOrStr shipping.name ""
    CustomerEmail := jsOrStr order.email (jsOrStr order.contact_email "")
    ProjectName := ""
    ProjectDescription := ""
    HandlingType := ""
    HandlingDate := none
    ReadyDate := none
    CustomerReference := order.name
    SalesOrderDescription := "Shopify order " ++ jsToStr order.name
    DeliveryTerms := ""
    ShippingDetails := ""
    SalesOrderDocuments := ""
    AddressContactPerson1 := jsOrStr shipping.name ""
    AddressAttention1 := ""
    AddressStreet1 := jsOrStr shipping.address1 ""
    AddressHouseNumber1 := ""
    AddressHouseNumberAddition1 := ""
    AddressZipcode1 := jsOrStr shipping.zip ""
    AddressCity1 := jsOrStr shipping.city ""
    AddressCountry1 := jsOrStr shipping.country ""
    AddressPhonenumber1 := jsOrStr shipping.phone (jsOrStr order.phone "")
    AddressEmail1 := jsOrStr order.email (jsOrStr order.contact_email "")
    Address2Name := ""
    AddressContactPerson2 := ""
    AddressAttention2 := ""
    AddressStreet2 := ""
    AddressHouseNumber2 := ""
    AddressHouseNumberAddition2 := ""
    AddressZipcode2 := ""
    AddressCity2 := ""
    AddressCountry2 := ""
    AddressPhonenumber2 := ""
    AddressEmail2 := ""
    WareHouse := WEBSTOCK_WAREHOUSE
    OrderLines := (order.line_items.getD []).map mapLineItemToWebStockLine }

/-! ## HMAC verification (`verifyShopifyHmac`, identical in both variants) -/

/-- `crypto.timingSafeEqual` on two UTF-8 buffers; it throws when the buffer
lengths differ.  A buffer is represented by the string it encodes: UTF-8
encoding is injective, and `String.utf8ByteSize` is the buffer length, so
equal-length buffers are equal exactly when the strings are. -/
def timingSafeEqual (a b : String) : Except Unit Bool :=
  if a.utf8ByteSize ≠ b.utf8ByteSize then .error () else .ok (a == b)

/-- `verifyShopifyHmac`.  The HMAC-SHA256 primitive is an external library
call (`crypto.createHmac(...).update(rawBody).digest("base64")`); it enters
the model as the argument `hmac`, mapping the secret and the raw body to the
base64 digest string.  The `try`/`catch` around the comparison becomes a
`match` on the `Except` result. -/
def verifyShopifyHmac (hmac : String → String → String)
    (secret : Option String) (rawBody : String) (hmacHeader : Option String) : Bool :=
  if !jsTruthy secret || !jsTruthy hmacHeader then false
  else
    let digest := hmac (secret.getD "") rawBody
    match timingSafeEqual digest (hmacHeader.getD "") with
    | .ok b => b
    | .error _ => false

/-! ## The orders-updated webhook handlers -/

/-- External collaborators of the webhook route: the configured webhook
secret, the HMAC primitive, and `JSON.parse` (`none` = the parse threw). -/
structure HandlerConfig where
  secret : Option String
  hmac : String → String → String
  parseJson : String → Option Order

/-- An inbound webhook request: the raw body bytes and the
`X-Shopify-Hmac-Sha256` header (`none` = header absent). -/
structure WebhookRequest where
  rawBody : String
  hmacHeader : Option String

/-- Observable outcome of one variant-1 handling: HTTP status and body, the
`sentOrders` registry after the handling, and the payloads POSTed to
WebStock during the handling. -/
structure HandlerResult where
  status : ℕ
  body : String
  sentOrders : List ℕ
  outboundCalls : List WebStockOrder
deriving DecidableEq, Repr

/-- Observable outcome of one variant-2 handling (no registry exists). -/
structure HandlerResultV2 where
  status : ℕ
  body : String
  outboundCalls : List WebStockOrder
deriving DecidableEq, Repr

/-- The variant-1 `POST /webhooks/shopify/orders-updated` handler.
`submitOk` is the outcome of the (at most one) `sendOrderToWebStock` call:
`true` = 2xx response, `false` = the call threw, landing in the `catch`.
`sent` is the `sentOrders` registry when the request arrives. -/
def handleOrdersUpdated (cfg : HandlerConfig) (submitOk : Bool)
    (sent : List ℕ) (req : WebhookRequest) : HandlerResult :=
  if !verifyShopifyHmac cfg.hmac cfg.secret req.rawBody req.hmacHeader then
    { status := 401, body := "Unauthorized", sentOrders := sent, outboundCalls := [] }
  else
    match cfg.parseJson req.rawBody with
    | none =>
      { status := 400, body := "Invalid JSON", sentOrders := sent, outboundCalls := [] }
    | some order =>
      if order.fulfillment_status ≠ some "fulfilled" then
        { status := 200, body := "No action", sentOrders := sent, outboundCalls := [] }
      else if order.id ∈ sent then
        { status := 200, body := "Already sent", sentOrders := sent, outboundCalls := [] }
      else
        let sent1 := order.id :: sent
        let payload := buildWebStockOrderFromShopifyV1 order
        if submitOk then
          { status := 200, body := "Order sent to WebStock (orders-updated)",
            sentOrders := sent1, outboundCalls := [payload] }
        else
          { status := 500, body := "Server error",
            sentOrders := sent1, outboundCalls := [payload] }

/-- The variant-2 `POST /webhooks/shopify/orders-updated` handler: same gate
and responses, but no `sentOrders` registry at all. -/
def handleOrdersUpdatedV2 (cfg : HandlerConfig) (submitOk : Bool)
    (req : WebhookRequest) : HandlerResultV2 :=
  if !verifyShopifyHmac cfg.hmac cfg.secret req.rawBody req.hmacHeader then
    { status := 401, body := "Unauthorized", outboundCalls := [] }
  else
    match cfg.parseJson req.rawBody with
    | none => { status := 400, body := "Invalid JSON", outboundCalls := [] }
    | some order =>
      if order.fulfillment_status ≠ some "fulfilled" then
        { status := 200, body := "No action", outboundCalls := [] }
      else
        let payload := buildWebStockOrderFromShopifyV2 order
        if submitOk then
          { status := 200, body := "Order sent to WebStock (orders-updated)",
            outboundCalls := [payload] }
        else
          { status := 500, body := "Server error", outboundCalls := [payload] }

/-! ## Helper lemmas -/

theorem dropWhile_eq_self_of_not {p : Char → Bool} :
    ∀ {l : List Char}, (∀ c ∈ l, p c = false) → l.dropWhile p = l := by
  intro l h
  cases l with
  | nil => rfl
  | cons c cs => simp [List.dropWhile_cons, h c (by simp)]

theorem jsTrimList_eq_self {l : List Char}
    (h : ∀ c ∈ l, isJsWhitespace c = false) : jsTrimList l = l := by
  unfold jsTrimList
  rw [dropWhile_eq_self_of_not h,
    dropWhile_eq_self_of_not (fun c hc => h c (List.mem_reverse.mp hc)),
    List.reverse_reverse]

theorem digit_not_jsWhitespace {c : Char} (h : isRegexDigit c = true) :
    isJsWhitespace c = false := by
  simp only [isRegexDigit, Bool.and_eq_true, decide_eq_true_eq] at h
  rw [Bool.eq_false_iff]
  intro hw
  simp only [isJsWhitespace, Bool.or_eq_true, Bool.and_eq_true, decide_eq_true_eq] at hw
  omega

theorem additionChar_not_jsWhitespace {c : Char} (h : isAdditionChar c = true) :
    isJsWhitespace c = false := by
  simp only [isAdditionChar, Bool.or_eq_true, Bool.and_eq_true, decide_eq_true_eq] at h
  rw [Bool.eq_false_iff]
  intro hw
  simp only [isJsWhitespace, Bool.or_eq_true, Bool.and_eq_true, decide_eq_true_eq] at hw
  omega

theorem tryTail_spec {l hn add : List Char} (h : tryTail l = some (hn, add)) :
    1 ≤ hn.length ∧ hn.length ≤ 5 ∧ (∀ c ∈ hn, isRegexDigit c = true) ∧
      ∀ c ∈ add, isAdditionChar c = true := by
  simp only [tryTail] at h
  split at h
  · exact absurd h (by simp)
  · split at h
    · exact absurd h (by simp)
    · split at h
      · rename_i hne hdne _
        obtain ⟨rfl, rfl⟩ : _ ∧ _ := by
          have := Option.some.inj h
          exact ⟨congrArg Prod.fst this, congrArg Prod.snd this⟩
        refine ⟨?_, ?_, ?_, ?_⟩
        · have : (List.takeWhile isRegexDigit
              (List.dropWhile isJsWhitespace l)).length ≠ 0 := by
            intro h0
            exact hdne (by simpa [List.isEmpty_iff, List.length_eq_zero] using h0)
          simp only [List.length_take]
          omega
        · simp only [List.length_take]
          omega
        · intro c hc
          exact List.mem_takeWhile_imp (List.mem_of_mem_take hc)
        · intro c hc
          exact List.mem_takeWhile_imp hc
      · exact absurd h (by simp)

theorem splitCore_some :
    ∀ (l acc : List Char) {g1 hn add : List Char},
      splitCore acc l = some (g1, hn, add) → ∃ t, tryTail t = some (hn, add) := by
  intro l
  induction l with
  | nil =>
    intro acc g1 hn add h
    exact absurd h (by simp [splitCore])
  | cons c rest ih =>
    intro acc g1 hn add h
    simp only [splitCore] at h
    split at h
    · exact absurd h (by simp)
    · split at h
      · rename_i hn1 add1 heq
        have := Option.some.inj h
        refine ⟨rest, ?_⟩
        rw [heq]
        rw [show hn1 = hn from congrArg (Prod.fst ∘ Prod.snd) this,
          show add1 = add from congrArg (Prod.snd ∘ Prod.snd) this]
      · exact ih _ h

/-! ## Claim C5 -/

/-- C5: the address decomposer satisfies the four documented test vectors:
"Main Street 25" → ("Main Street", "25", ""); "Main Street 12A" →
house number "12" with addition "A"; "Main Street 10-3" → house number "10"
with addition "-3"; "NoNumberHere" → everything in the street field. -/
theorem splitStreetAndHouse_test_vectors :
    splitStreetAndHouse (some "Main Street 25") =
      { street := "Main Street", houseNumber := "25", houseNumberAddition := "" } ∧
    splitStreetAndHouse (some "Main Street 12A") =
      { street := "Main Street", houseNumber := "12", houseNumberAddition := "A" } ∧
    splitStreetAndHouse (some "Main Street 10-3") =
      { street := "Main Street", houseNumber := "10", houseNumberAddition := "-3" } ∧
    splitStreetAndHouse (some "NoNumberHere") =
      { street := "NoNumberHere", houseNumber := "", houseNumberAddition := "" } :=
  ⟨by decide, by decide, by decide, by decide⟩

/-! ## Claim C10 -/

/-- The shape invariant claimed for `splitStreetAndHouse` results: the house
number is empty or a run of one to five decimal digits, the addition consists
only of alphanumeric / hyphen / slash characters, and a non-empty addition
implies a non-empty house number.  (That all three fields are strings is
carried by the type of `SplitResult`.) -/
def splitResultInvariant (r : SplitResult) : Prop :=
  (r.houseNumber = "" ∨
    (1 ≤ r.houseNumber.data.length ∧ r.houseNumber.data.length ≤ 5 ∧
      ∀ c ∈ r.houseNumber.data, isRegexDigit c = true)) ∧
  (∀ c ∈ r.houseNumberAddition.data, isAdditionChar c = true) ∧
  (r.houseNumberAddition = "" ∨ r.houseNumber ≠ "")

/-- C10: for every input (absent, empty, or arbitrary), the result of
`splitStreetAndHouse` satisfies the shape invariant `splitResultInvariant`. -/
theorem splitStreetAndHouse_invariant (address : Option String) :
    splitResultInvariant (splitStreetAndHouse address) := by
  have nilcase : ∀ s : String, splitResultInvariant
      { street := s, houseNumber := "", houseNumberAddition := "" } := by
    intro s
    exact ⟨Or.inl rfl, by intro c hc; exact absurd hc (by simp), Or.inl rfl⟩
  cases address with
  | none => exact nilcase ""
  | some a =>
    by_cases ha : a = ""
    · simp only [splitStreetAndHouse, ha, if_pos rfl]
      exact nilcase ""
    · simp only [splitStreetAndHouse, if_neg ha]
      cases hsc : splitCore [] (jsTrim a).data with
      | none => exact nilcase (jsTrim a)
      | some t =>
        obtain ⟨g1, hn, add⟩ := t
        show splitResultInvariant
          { street := jsTrim ⟨g1⟩, houseNumber := jsTrim ⟨hn⟩,
            houseNumberAddition := jsTrim ⟨add⟩ }
        obtain ⟨u, htt⟩ := splitCore_some _ _ hsc
        obtain ⟨h1, h5, hdig, haddc⟩ := tryTail_spec htt
        have hhn : jsTrim ⟨hn⟩ = ⟨hn⟩ :=
          String.ext (jsTrimList_eq_self fun c hc => digit_not_jsWhitespace (hdig c hc))
        have hadd : jsTrim ⟨add⟩ = ⟨add⟩ :=
          String.ext (jsTrimList_eq_self fun c hc => additionChar_not_jsWhitespace (haddc c hc))
        refine ⟨?_, ?_, ?_⟩
        · right
          show 1 ≤ (jsTrim ⟨hn⟩).data.length ∧ (jsTrim ⟨hn⟩).data.length ≤ 5 ∧ _
          rw [hhn]
          exact ⟨h1, h5, hdig⟩
        · show ∀ c ∈ (jsTrim ⟨add⟩).data, _
          rw [hadd]
          exact haddc
        · right
          show jsTrim ⟨hn⟩ ≠ ""
          rw [hhn]
          intro heq
          have : hn = [] := congrArg String.data heq
          simp [this] at h1

/-! ## Claim C3 -/

/-- C3: `verifyShopifyHmac` is total (it is a Lean function into `Bool`, so
it never throws); it returns `false` whenever the secret is unconfigured
(absent or empty) or the signature header is absent or empty; and when the
constant-time comparison would throw — the digest buffer and the header
buffer have different byte lengths — the exception is swallowed and the
result is `false`. -/
theorem verifyShopifyHmac_never_throws (hmac : String → String → String)
    (secret : Option String) (rawBody : String) (header : Option String) :
    (jsTruthy secret = false → verifyShopifyHmac hmac secret rawBody header = false) ∧
    (jsTruthy header = false → verifyShopifyHmac hmac secret rawBody header = false) ∧
    (∀ s h, secret = some s → header = some h →
      (hmac s rawBody).utf8ByteSize ≠ h.utf8ByteSize →
      verifyShopifyHmac hmac secret rawBody header = false) := by
  refine ⟨?_, ?_, ?_⟩
  · intro hs
    simp [verifyShopifyHmac, hs]
  · intro hh
    simp [verifyShopifyHmac, hh]
  · intro s h hs hh hne
    subst hs
    subst hh
    simp only [verifyShopifyHmac]
    split
    · rfl
    · have herr : timingSafeEqual (hmac ((some s).getD "") rawBody) ((some h).getD "") =
          .error () := by
        simp [timingSafeEqual, hne]
      rw [herr]

/-- Witness for C3: a one-byte header can never equal a two-byte digest's
buffer length, and the verifier returns `false` rather than propagating the
length-mismatch exception. -/
theorem verifyShopifyHmac_never_throws_witness :
    verifyShopifyHmac (fun _ _ => "ab") (some "k") "body" (some "x") = false :=
  (verifyShopifyHmac_never_throws (fun _ _ => "ab") (some "k") "body" (some "x")).2.2
    "k" "x" rfl rfl (by decide)

/-! ## Claim C4 -/

/-- Every code in the static map is non-empty, so a lookup hit is always
truthy. -/
theorem lookup_TITLE_TO_EAN_MAP_ne_empty {k e : String}
    (h : TITLE_TO_EAN_MAP.lookup k = some e) : e ≠ "" := by
  simp only [TITLE_TO_EAN_MAP, List.lookup] at h
  repeat' split at h
  all_goals (try cases h)
  all_goals decide

/-- A lookup hit resolves to the mapped code in both fields. -/
theorem resolveArticleFromItem_hit {item : LineItem} {e : String}
    (h : TITLE_TO_EAN_MAP.lookup (normalizeTitle item.title) = some e) :
    resolveArticleFromItem item = { articleNumber := e, ean := e } := by
  simp only [resolveArticleFromItem, h]
  rw [if_neg (lookup_TITLE_TO_EAN_MAP_ne_empty h)]

/-- A lookup miss falls back to `sku || title || "UNKNOWN"` with empty EAN. -/
theorem resolveArticleFromItem_miss {item : LineItem}
    (h : TITLE_TO_EAN_MAP.lookup (normalizeTitle item.title) = none) :
    resolveArticleFromItem item =
      { articleNumber := jsOrStr item.sku (jsOrStr item.title "UNKNOWN"), ean := "" } := by
  simp only [resolveArticleFromItem, h]

/-- C4 counterexample: the claim's blanket clause "titles differing only in
surrounding whitespace or letter case resolve identically" fails on the
fallback path: "Foo" and "FOO" differ only in letter case (their normalized
forms agree) yet, being unmapped and without SKU, they resolve to their two
distinct raw titles. -/
theorem resolveArticleFromItem_case_sensitive_fallback :
    normalizeTitle (some "Foo") = normalizeTitle (some "FOO") ∧
    resolveArticleFromItem { title := some "Foo" } ≠
      resolveArticleFromItem { title := some "FOO" } :=
  ⟨by decide, by decide⟩

/-- C4 amended: whitespace/case-insensitivity holds on the mapped path —
two items whose normalized titles agree and hit the static map resolve
identically; a mapped title returns the mapped code as both article code and
EAN; an unmapped title falls back to the truthy-SKU, else the raw title,
else "UNKNOWN", with an empty EAN (so on the fallback path the raw,
non-normalized title is used). -/
theorem resolveArticleFromItem_contract :
    (∀ i1 i2 : LineItem, normalizeTitle i1.title = normalizeTitle i2.title →
      (TITLE_TO_EAN_MAP.lookup (normalizeTitle i1.title)).isSome = true →
      resolveArticleFromItem i1 = resolveArticleFromItem i2) ∧
    (∀ (i : LineItem) (e : String),
      TITLE_TO_EAN_MAP.lookup (normalizeTitle i.title) = some e →
      resolveArticleFromItem i = { articleNumber := e, ean := e }) ∧
    (∀ i : LineItem, TITLE_TO_EAN_MAP.lookup (normalizeTitle i.title) = none →
      resolveArticleFromItem i =
        { articleNumber := jsOrStr i.sku (jsOrStr i.title "UNKNOWN"), ean := "" }) := by
  refine ⟨?_, ?_, ?_⟩
  · intro i1 i2 hnorm hsome
    obtain ⟨e, he⟩ := Option.isSome_iff_exists.mp hsome
    rw [resolveArticleFromItem_hit he, resolveArticleFromItem_hit (hnorm ▸ he)]
  · intro i e he
    exact resolveArticleFromItem_hit he
  · intro i he
    exact resolveArticleFromItem_miss he

/-- Witness for C4's amended contract: " Fruit Punch " normalizes to
"fruit punch", hits the map, and returns the EAN in both fields. -/
theorem resolveArticleFromItem_contract_witness :
    resolveArticleFromItem { title := some " Fruit Punch " } =
      { articleNumber := "8720892642738", ean := "8720892642738" } :=
  resolveArticleFromItem_contract.2.1 { title := some " Fruit Punch " }
    "8720892642738" (by decide)

/-! ## Claim C9 -/

/-- C9 counterexample: the claim says quantity and price "default to zero
when absent or non-numeric".  A truthy non-numeric quantity (`"two"`) is
passed through unchanged — `item.quantity || 0` only replaces falsy values —
and a truthy non-numeric price (`"abc"`) parses to NaN (`none`), not zero. -/
theorem mapLineItem_nonnumeric_not_zeroed :
    (mapLineItemToWebStockLine
        { quantity := .str "two", price := .str "abc" }).QuantityOrdered = .str "two" ∧
    (mapLineItemToWebStockLine
        { quantity := .str "two", price := .str "abc" }).PricePerArticle = none ∧
    JSVal.str "two" ≠ .num 0 ∧ (none : Option ℚ) ≠ some 0 :=
  ⟨by decide, by decide, by decide, by decide⟩

/-- C9 amended: the ordered quantity defaults to zero exactly when the
input quantity is falsy (absent, null, 0, or empty string) and is passed
through unchanged otherwise; the unit price is parsed with `parseFloat`,
defaults to zero when the input price is falsy, and a truthy non-numeric
price yields NaN (no number) rather than zero. -/
theorem mapLineItem_quantity_price_defaults :
    (∀ i : LineItem, i.quantity.truthy = false →
      (mapLineItemToWebStockLine i).QuantityOrdered = .num 0) ∧
    (∀ i : LineItem, i.quantity.truthy = true →
      (mapLineItemToWebStockLine i).QuantityOrdered = i.quantity) ∧
    (∀ i : LineItem, i.price.truthy = false →
      (mapLineItemToWebStockLine i).PricePerArticle = some 0) ∧
    (∀ (i : LineItem) (s : String), i.price = .str s → s ≠ "" →
      (mapLineItemToWebStockLine i).PricePerArticle = jsParseFloatStr s) := by
  refine ⟨?_, ?_, ?_, ?_⟩
  · intro i hq
    simp [mapLineItemToWebStockLine, jsvOr, hq]
  · intro i hq
    simp [mapLineItemToWebStockLine, jsvOr, hq]
  · intro i hp
    simp [mapLineItemToWebStockLine, jsvOr, hp, jsParseFloat]
  · intro i s hp hs
    simp [mapLineItemToWebStockLine, jsvOr, hp, JSVal.truthy, hs, jsParseFloat]

/-- Witness for C9's amended statement: an item with every field absent gets
quantity 0 and price 0. -/
theorem mapLineItem_quantity_price_defaults_witness :
    (mapLineItemToWebStockLine {}).QuantityOrdered = .num 0 :=
  mapLineItem_quantity_price_defaults.1 {} rfl

/-! ## Claim C8 -/

/-- The customer-identity priority exactly as the claim words it: the first
non-empty among (a) the concatenated first and last names from the customer
sub-record, (b) the shipping address's name field, (c) the order's own
display reference (`order.name`). -/
def claimedCustomerName (order : Order) : Option String :=
  let customer := order.customer.getD {}
  let shipping := order.shipping_address.getD {}
  [jsTrim (jsOrStr customer.first_name "" ++ " " ++ jsOrStr customer.last_name ""),
   jsOrStr shipping.name "",
   jsOrStr order.name ""].find? (fun s => s ≠ "")

/-- C8 counterexample: for an order whose customer sub-record names
"John Doe", whose shipping name field is "Jane", and whose display reference
is "#1001", the claimed priority selects "John Doe"; but the variant-1
transformer sets its CustomerName field to the fixed main-customer constant
"GWT-SBG BV", and even its end-customer name field (Address2Name) is built
from the shipping address — yielding "Jane" — not from the customer
sub-record. -/
theorem buildV1_customerName_counterexample :
    claimedCustomerName
        { id := 1, name := some "#1001",
          shipping_address := some { name := some "Jane" },
          customer := some { first_name := some "John", last_name := some "Doe" } } =
      some "John Doe" ∧
    (buildWebStockOrderFromShopifyV1
        { id := 1, name := some "#1001",
          shipping_address := some { name := some "Jane" },
          customer := some { first_name := some "John", last_name := some "Doe" } }).CustomerName =
      some "GWT-SBG BV" ∧
    (buildWebStockOrderFromShopifyV1
        { id := 1, name := some "#1001",
          shipping_address := some { name := some "Jane" },
          customer := some { first_name := some "John", last_name := some "Doe" } }).Address2Name =
      "Jane" :=
  ⟨by decide, by decide, by decide⟩

/-- C8 amended: the claimed first-non-empty priority (customer first+last
name, then shipping name, then display reference) describes the variant-2
transformer's CustomerName whenever some candidate is non-empty; the
variant-1 transformer instead emits the fixed main-customer constant. -/
theorem customerName_priority :
    (∀ order : Order, (claimedCustomerName order).isSome = true →
      (buildWebStockOrderFromShopifyV2 order).CustomerName = claimedCustomerName order) ∧
    (∀ order : Order,
      (buildWebStockOrderFromShopifyV1 order).CustomerName =
        some WEBSTOCK_MAIN_CUSTOMER_NAME) := by
  constructor
  · intro order hsome
    simp only [buildWebStockOrderFromShopifyV2, claimedCustomerName] at hsome ⊢
    by_cases h1 : jsTrim (jsOrStr (order.customer.getD {}).first_name "" ++ " " ++
        jsOrStr (order.customer.getD {}).last_name "") = ""
    · simp only [h1, List.find?, decide_not] at hsome ⊢
      rcases hsn : (order.shipping_address.getD {}).name with _ | sn
      · simp only [hsn, jsOr, jsTruthy, jsOrStr, List.find?] at hsome ⊢
        rcases hnm : order.name with _ | nm
        · simp [hnm]
        · by_cases hnme : nm = ""
          · simp [hnm, hnme] at hsome
          · simp [hnm, hnme]
      · by_cases hsne : sn = ""
        · simp only [hsn, hsne, jsOr, jsTruthy, jsOrStr, List.find?] at hsome ⊢
          rcases hnm : order.name with _ | nm
          · simp [hnm]
          · by_cases hnme : nm = ""
            · simp [hnm, hnme] at hsome
            · simp [hnm, hnme]
        · simp [hsn, hsne, jsOr, jsTruthy, jsOrStr, List.find?]
    · simp [h1, List.find?]
  · intro order
    rfl

/-- Witness for C8's amended statement: the variant-2 CustomerName equals
the claimed priority on an order where the customer sub-record is named. -/
theorem customerName_priority_witness :
    (buildWebStockOrderFromShopifyV2
        { id := 2, name := some "#1002",
          shipping_address := some { name := some "Janet" },
          customer := some { first_name := some "Joan", last_name := some "Doe" } }).CustomerName =
      claimedCustomerName
        { id := 2, name := some "#1002",
          shipping_address := some { name := some "Janet" },
          customer := some { first_name := some "Joan", last_name := some "Doe" } } :=
  customerName_priority.1 _ (by decide)

/-! ## Handler lemmas -/

/-- A qualifying, authenticated, fresh (not-yet-registered) event: the id is
inserted and exactly one submission is attempted, the response depending on
its outcome. -/
theorem handleOrdersUpdated_fresh (cfg : HandlerConfig) (ok : Bool) (sent : List ℕ)
    (req : WebhookRequest) (order : Order)
    (hv : verifyShopifyHmac cfg.hmac cfg.secret req.rawBody req.hmacHeader = true)
    (hp : cfg.parseJson req.rawBody = some order)
    (hf : order.fulfillment_status = some "fulfilled")
    (hnew : order.id ∉ sent) :
    handleOrdersUpdated cfg ok sent req =
      if ok then
        { status := 200, body := "Order sent to WebStock (orders-updated)",
          sentOrders := order.id :: sent,
          outboundCalls := [buildWebStockOrderFromShopifyV1 order] }
      else
        { status := 500, body := "Server error",
          sentOrders := order.id :: sent,
          outboundCalls := [buildWebStockOrderFromShopifyV1 order] } := by
  simp [handleOrdersUpdated, hv, hp, hf, hnew]

/-- A qualifying, authenticated event whose id is already registered is an
"Already sent" no-op. -/
theorem handleOrdersUpdated_already (cfg : HandlerConfig) (ok : Bool) (sent : List ℕ)
    (req : WebhookRequest) (order : Order)
    (hv : verifyShopifyHmac cfg.hmac cfg.secret req.rawBody req.hmacHeader = true)
    (hp : cfg.parseJson req.rawBody = some order)
    (hf : order.fulfillment_status = some "fulfilled")
    (hmem : order.id ∈ sent) :
    handleOrdersUpdated cfg ok sent req =
      { status := 200, body := "Already sent", sentOrders := sent, outboundCalls := [] } := by
  simp [handleOrdersUpdated, hv, hp, hf, hmem]

/-! ## Claim C1 -/

/-- C1 counterexample: the variant-2 handler has no SentOrderRegistry.  It
is stateless, so a second handling of the same qualifying event is the same
application: it again performs one outbound call and reports "sent", not
"already sent" — two sequential handlings make two outbound calls. -/
theorem ordersUpdatedV2_no_dedup :
    (handleOrdersUpdatedV2
        ⟨some "k", fun _ _ => "mac",
         fun _ => some { id := 42, fulfillment_status := some "fulfilled" }⟩
        true ⟨"b", some "mac"⟩).outboundCalls.length = 1 ∧
    (handleOrdersUpdatedV2
        ⟨some "k", fun _ _ => "mac",
         fun _ => some { id := 42, fulfillment_status := some "fulfilled" }⟩
        true ⟨"b", some "mac"⟩).body ≠ "Already sent" :=
  ⟨by decide, by decide⟩

/-- C1 amended: in the registry-bearing variant-1 handler, handling a fresh
qualifying order submits exactly once and registers the id, and a second
handling of an event with the same order id short-circuits to a 200
"Already sent" with no outbound call; the variant-2 handler, which has no
registry, performs an outbound call on every qualifying handling. -/
theorem orders_updated_idempotent_amended :
    (∀ (cfg : HandlerConfig) (ok1 ok2 : Bool) (sent : List ℕ)
        (req1 req2 : WebhookRequest) (order1 order2 : Order),
      verifyShopifyHmac cfg.hmac cfg.secret req1.rawBody req1.hmacHeader = true →
      cfg.parseJson req1.rawBody = some order1 →
      order1.fulfillment_status = some "fulfilled" →
      order1.id ∉ sent →
      verifyShopifyHmac cfg.hmac cfg.secret req2.rawBody req2.hmacHeader = true →
      cfg.parseJson req2.rawBody = some order2 →
      order2.fulfillment_status = some "fulfilled" →
      order2.id = order1.id →
      (handleOrdersUpdated cfg ok1 sent req1).outboundCalls =
          [buildWebStockOrderFromShopifyV1 order1] ∧
      order1.id ∈ (handleOrdersUpdated cfg ok1 sent req1).sentOrders ∧
      handleOrdersUpdated cfg ok2 (handleOrdersUpdated cfg ok1 sent req1).sentOrders req2 =
        { status := 200, body := "Already sent",
          sentOrders := (handleOrdersUpdated cfg ok1 sent req1).sentOrders,
          outboundCalls := [] }) ∧
    (∀ (cfg : HandlerConfig) (ok : Bool) (req : WebhookRequest) (order : Order),
      verifyShopifyHmac cfg.hmac cfg.secret req.rawBody req.hmacHeader = true →
      cfg.parseJson req.rawBody = some order →
      order.fulfillment_status = some "fulfilled" →
      (handleOrdersUpdatedV2 cfg ok req).outboundCalls =
        [buildWebStockOrderFromShopifyV2 order]) := by
  constructor
  · intro cfg ok1 ok2 sent req1 req2 order1 order2 hv1 hp1 hf1 hnew hv2 hp2 hf2 hid
    have h1 := handleOrdersUpdated_fresh cfg ok1 sent req1 order1 hv1 hp1 hf1 hnew
    have hsent : (handleOrdersUpdated cfg ok1 sent req1).sentOrders = order1.id :: sent := by
      rw [h1]
      cases ok1 <;> rfl
    have hcalls : (handleOrdersUpdated cfg ok1 sent req1).outboundCalls =
        [buildWebStockOrderFromShopifyV1 order1] := by
      rw [h1]
      cases ok1 <;> rfl
    refine ⟨hcalls, ?_, ?_⟩
    · rw [hsent]
      exact List.mem_cons_self _ _
    · rw [hsent]
      exact handleOrdersUpdated_already cfg ok2 _ req2 order2 hv2 hp2 hf2
        (by rw [hid]; exact List.mem_cons_self _ _)
  · intro cfg ok req order hv hp hf
    cases ok <;> simp [handleOrdersUpdatedV2, hv, hp, hf]

/-- Witness for C1's amended statement: the first handling of order 7
produces the single outbound payload. -/
theorem orders_updated_idempotent_amended_witness :
    (handleOrdersUpdated
        ⟨some "s", fun _ _ => "m",
         fun _ => some { id := 7, fulfillment_status := some "fulfilled" }⟩
        true [] ⟨"x", some "m"⟩).outboundCalls =
      [buildWebStockOrderFromShopifyV1 { id := 7, fulfillment_status := some "fulfilled" }] :=
  (orders_updated_idempotent_amended.1
      ⟨some "s", fun _ _ => "m",
       fun _ => some { id := 7, fulfillment_status := some "fulfilled" }⟩
      true true [] ⟨"x", some "m"⟩ ⟨"x", some "m"⟩ _ _
      (by decide) rfl rfl (by decide) (by decide) rfl rfl rfl).1

/-! ## Claim C2 -/

/-- C2: for a fresh qualifying order, the id is registered even when the
submission fails (500), and a subsequent identical event answers 200
"Already sent" with no outbound call — the order is never retried. -/
theorem optimistic_marking_never_retries (cfg : HandlerConfig) (ok2 : Bool)
    (sent : List ℕ) (req : WebhookRequest) (order : Order)
    (hv : verifyShopifyHmac cfg.hmac cfg.secret req.rawBody req.hmacHeader = true)
    (hp : cfg.parseJson req.rawBody = some order)
    (hf : order.fulfillment_status = some "fulfilled")
    (hnew : order.id ∉ sent) :
    (handleOrdersUpdated cfg false sent req).status = 500 ∧
    order.id ∈ (handleOrdersUpdated cfg false sent req).sentOrders ∧
    (handleOrdersUpdated cfg false sent req).outboundCalls =
      [buildWebStockOrderFromShopifyV1 order] ∧
    handleOrdersUpdated cfg ok2 (handleOrdersUpdated cfg false sent req).sentOrders req =
      { status := 200, body := "Already sent",
        sentOrders := (handleOrdersUpdated cfg false sent req).sentOrders,
        outboundCalls := [] } := by
  have h1 : handleOrdersUpdated cfg false sent req =
      { status := 500, body := "Server error", sentOrders := order.id :: sent,
        outboundCalls := [buildWebStockOrderFromShopifyV1 order] } := by
    simpa using handleOrdersUpdated_fresh cfg false sent req order hv hp hf hnew
  rw [h1]
  refine ⟨rfl, List.mem_cons_self _ _, rfl, ?_⟩
  exact handleOrdersUpdated_already cfg ok2 _ req order hv hp hf (List.mem_cons_self _ _)

/-- Witness for C2: a failed submission of fresh order 42 yields 500, yet
the id is registered. -/
theorem optimistic_marking_never_retries_witness :
    (handleOrdersUpdated
        ⟨some "w", fun _ _ => "h",
         fun _ => some { id := 42, fulfillment_status := some "fulfilled" }⟩
        false [] ⟨"raw", some "h"⟩).status = 500 :=
  (optimistic_marking_never_retries
      ⟨some "w", fun _ _ => "h",
       fun _ => some { id := 42, fulfillment_status := some "fulfilled" }⟩
      true [] ⟨"raw", some "h"⟩ _ (by decide) rfl rfl (by decide)).1

/-! ## Claim C6 -/

/-- C6: an authenticated, well-formed event whose fulfillment status is
absent or not equal to "fulfilled" yields a 200 "No action" response and no
outbound call — whatever the line items, including none — in both handler
variants. -/
theorem nonqualifying_never_pushes (cfg : HandlerConfig) (ok : Bool) (sent : List ℕ)
    (req : WebhookRequest) (order : Order)
    (hv : verifyShopifyHmac cfg.hmac cfg.secret req.rawBody req.hmacHeader = true)
    (hp : cfg.parseJson req.rawBody = some order)
    (hs : order.fulfillment_status ≠ some "fulfilled") :
    handleOrdersUpdated cfg ok sent req =
      { status := 200, body := "No action", sentOrders := sent, outboundCalls := [] } ∧
    handleOrdersUpdatedV2 cfg ok req =
      { status := 200, body := "No action", outboundCalls := [] } := by
  constructor <;> simp [handleOrdersUpdated, handleOrdersUpdatedV2, hv, hp, hs]

/-- Witness for C6: an event with no fulfillment status at all (and no line
items) is a 200 "No action" with no outbound call. -/
theorem nonqualifying_never_pushes_witness :
    handleOrdersUpdated
        ⟨some "w2", fun _ _ => "h2", fun _ => some { id := 3 }⟩ true []
        ⟨"raw2", some "h2"⟩ =
      { status := 200, body := "No action", sentOrders := [], outboundCalls := [] } :=
  (nonqualifying_never_pushes
      ⟨some "w2", fun _ _ => "h2", fun _ => some { id := 3 }⟩ true []
      ⟨"raw2", some "h2"⟩ _ (by decide) rfl (by decide)).1

/-! ## Claim C7 -/

/-- C7: the complete HTTP outcome taxonomy of both handler variants — 401
exactly when signature verification fails; else 400 exactly when the body
does not parse; else 200 for no-action, already-sent and successful-send
outcomes; 500 exactly when a submission is attempted and fails.  (Both
handlers are total Lean functions: every path resolves to a response.) -/
theorem orders_updated_status_taxonomy (cfg : HandlerConfig) (ok : Bool)
    (sent : List ℕ) (req : WebhookRequest) :
    (handleOrdersUpdated cfg ok sent req).status =
      (if verifyShopifyHmac cfg.hmac cfg.secret req.rawBody req.hmacHeader then
        (match cfg.parseJson req.rawBody with
         | none => 400
         | some order =>
           if order.fulfillment_status ≠ some "fulfilled" then 200
           else if order.id ∈ sent then 200
           else if ok then 200 else 500)
       else 401) ∧
    (handleOrdersUpdatedV2 cfg ok req).status =
      (if verifyShopifyHmac cfg.hmac cfg.secret req.rawBody req.hmacHeader then
        (match cfg.parseJson req.rawBody with
         | none => 400
         | some order =>
           if order.fulfillment_status ≠ some "fulfilled" then 200
           else if ok then 200 else 500)
       else 401) := by
  constructor
  all_goals
    cases hv : verifyShopifyHmac cfg.hmac cfg.secret req.rawBody req.hmacHeader <;>
      cases hp : cfg.parseJson req.rawBody <;>
        simp [handleOrdersUpdated, handleOrdersUpdatedV2, hv, hp] <;>
          (repeat' split) <;> simp_all

end ShopifWebStock
